import Mathlib

/-!
Verification of the `openenv-0ad-bridge` session/validation/transport core.

Shallow embedding of `src/openenv_zero_ad/environment.py`,
`src/openenv_zero_ad/models.py` and `src/openenv_zero_ad/server.py`.

Modelling conventions:
* Python/JSON values are the inductive `PyVal`; Python `dict`s are
  association lists with first-match lookup and insert-with-overwrite,
  Python `None` is `PyVal.none`, and `bool` is a separate constructor
  (the places where CPython treats `bool` as a subclass of `int` are
  modelled explicitly at each use site).
* The external RL interface (`hannibal_api/rl_interface_client.py`, an
  HTTP client) is modelled at method granularity, exactly the
  granularity at which the repository's own tests mock it: an `Engine`
  is a pair of stateful operations `eval` and `push`, each returning
  `Except String PyVal` (the `.error` case models a raised exception,
  carrying `str(e)`).
* Every session/transport operation additionally returns the list of
  engine calls it performed (`EngineCall` trace), so that "the
  forwarding primitive is never invoked" is a statement about the
  trace.
* A result of `Except.error m` from a session operation models a
  Python exception escaping that operation's boundary.
* `json.loads` / the stdlib JSON decoder is modelled by a fuel-based
  recursive-descent parser over `List Char` (`\uXXXX` escapes and
  exponent notation are not modelled; the decoder's exception text is
  abstracted).  `time.sleep` is a no-op; `uuid.uuid4()` is an explicit
  `freshId` argument.
-/

/-- Python/JSON values. -/
inductive PyVal where
  | none : PyVal
  | bool : Bool → PyVal
  | int : Int → PyVal
  | float : Rat → PyVal
  | str : String → PyVal
  | list : List PyVal → PyVal
  | dict : List (String × PyVal) → PyVal

/-- Python dict payloads (insertion-ordered association lists). -/
def PyDict := List (String × PyVal)

/-- `d.get(k)`: first-match lookup in an association list. -/
def pyGet (kvs : List (String × PyVal)) (k : String) : Option PyVal :=
  (kvs.find? (fun p => p.1 == k)).map (fun p => p.2)

/-- Insert with overwrite, keeping first-occurrence position (Python dict update). -/
def insertKV (kvs : List (String × PyVal)) (k : String) (v : PyVal) :
    List (String × PyVal) :=
  if kvs.any (fun p => p.1 == k) then
    kvs.map (fun p => if p.1 == k then (k, v) else p)
  else kvs ++ [(k, v)]

/-- Python truthiness of a JSON-decoded value. -/
def pyTruthy : PyVal → Bool
  | .none => false
  | .bool b => b
  | .int n => n != 0
  | .float q => q != 0
  | .str s => s.length != 0
  | .list xs => !xs.isEmpty
  | .dict kvs => !kvs.isEmpty

/-- Python type name of a JSON-decoded value (used in AttributeError text). -/
def pyTypeName : PyVal → String
  | .none => "NoneType"
  | .bool _ => "bool"
  | .int _ => "int"
  | .float _ => "float"
  | .str _ => "str"
  | .list _ => "list"
  | .dict _ => "dict"

mutual

/-- Python `repr` of a JSON-decoded value (string escaping inside `repr`
of a `str` is not modelled; floats are rendered as rationals). -/
def pyRepr : PyVal → String
  | .none => "None"
  | .bool true => "True"
  | .bool false => "False"
  | .int n => toString n
  | .float q => toString q
  | .str s => "'" ++ s ++ "'"
  | .list xs => "[" ++ pyReprItems xs ++ "]"
  | .dict kvs => "\x7b" ++ pyReprPairs kvs ++ "\x7d"

/-- Comma-joined `repr`s of list items. -/
def pyReprItems : List PyVal → String
  | [] => ""
  | [x] => pyRepr x
  | x :: y :: rest => pyRepr x ++ ", " ++ pyReprItems (y :: rest)

/-- Comma-joined `repr`s of dict entries. -/
def pyReprPairs : List (String × PyVal) → String
  | [] => ""
  | [(k, v)] => "'" ++ k ++ "': " ++ pyRepr v
  | (k, v) :: y :: rest => "'" ++ k ++ "': " ++ pyRepr v ++ ", " ++ pyReprPairs (y :: rest)

end

/-- Python `str()` of a JSON-decoded value (as interpolated by f-strings). -/
def pyStr : PyVal → String
  | .str s => s
  | v => pyRepr v

/-- JSON whitespace (also what `json.loads` skips). -/
def isWs (c : Char) : Bool :=
  c == ' ' || c == '\t' || c == '\n' || c == '\r'

/-- Drop leading JSON whitespace. -/
def skipWs : List Char → List Char
  | [] => []
  | c :: cs => if isWs c then skipWs cs else c :: cs

/-- Numeric value of a digit string. -/
def digitsVal (cs : List Char) : Int :=
  cs.foldl (fun n c => n * 10 + ((c.toNat - '0'.toNat : Nat) : Int)) 0

/-- Parse a JSON number (leading `-` or digit guaranteed by the caller;
exponents are not modelled). -/
def parseNum (cs : List Char) : Option (PyVal × List Char) :=
  let p := match cs with
    | '-' :: t => (true, t)
    | _ => (false, cs)
  let neg := p.1
  let cs1 := p.2
  let digs := cs1.takeWhile (fun c => c.isDigit)
  let rest := cs1.dropWhile (fun c => c.isDigit)
  if digs.isEmpty then none
  else
    let n : Int := digitsVal digs
    match rest with
    | '.' :: t =>
      let fd := t.takeWhile (fun c => c.isDigit)
      let rest2 := t.dropWhile (fun c => c.isDigit)
      if fd.isEmpty then none
      else
        let q : Rat := (n : Rat) + (digitsVal fd : Rat) / ((10 : Rat) ^ fd.length)
        some (.float (if neg then -q else q), rest2)
    | _ => some (.int (if neg then -n else n), rest)

mutual

/-- Recursive-descent JSON value parser (model of the stdlib decoder),
consuming from the first non-whitespace character. -/
def parseValue : Nat → List Char → Option (PyVal × List Char)
  | 0, _ => none
  | _ + 1, [] => none
  | f + 1, c :: cs =>
    if c == '\x7b' then
      parseObj f (skipWs cs)
    else if c == '[' then
      parseArr f (skipWs cs)
    else if c == '"' then
      (parseStr f cs "").map (fun p => (PyVal.str p.1, p.2))
    else if c == 't' then
      match cs with
      | 'r' :: 'u' :: 'e' :: rest => some (.bool true, rest)
      | _ => none
    else if c == 'f' then
      match cs with
      | 'a' :: 'l' :: 's' :: 'e' :: rest => some (.bool false, rest)
      | _ => none
    else if c == 'n' then
      match cs with
      | 'u' :: 'l' :: 'l' :: rest => some (.none, rest)
      | _ => none
    else if c == '-' || c.isDigit then
      parseNum (c :: cs)
    else none

/-- Parse an object body (after `\x7b`, whitespace skipped). -/
def parseObj : Nat → List Char → Option (PyVal × List Char)
  | 0, _ => none
  | f + 1, cs =>
    match cs with
    | '\x7d' :: rest => some (.dict [], rest)
    | _ => (parseMembers f cs []).map (fun p => (PyVal.dict p.1, p.2))

/-- Parse one or more `"key": value` members. -/
def parseMembers : Nat → List Char → List (String × PyVal) →
    Option (List (String × PyVal) × List Char)
  | 0, _, _ => none
  | f + 1, cs, acc =>
    match cs with
    | '"' :: cs1 =>
      match parseStr f cs1 "" with
      | Option.none => none
      | some (key, cs2) =>
        match skipWs cs2 with
        | ':' :: cs3 =>
          match parseValue f (skipWs cs3) with
          | Option.none => none
          | some (v, cs4) =>
            let acc1 := insertKV acc key v
            match skipWs cs4 with
            | ',' :: cs5 => parseMembers f (skipWs cs5) acc1
            | '\x7d' :: cs5 => some (acc1, cs5)
            | _ => none
        | _ => none
    | _ => none

/-- Parse an array body (after `[`, whitespace skipped). -/
def parseArr : Nat → List Char → Option (PyVal × List Char)
  | 0, _ => none
  | f + 1, cs =>
    match cs with
    | ']' :: rest => some (.list [], rest)
    | _ => (parseElems f cs []).map (fun p => (PyVal.list p.1, p.2))

/-- Parse one or more array elements. -/
def parseElems : Nat → List Char → List PyVal →
    Option (List PyVal × List Char)
  | 0, _, _ => none
  | f + 1, cs, acc =>
    match parseValue f cs with
    | Option.none => none
    | some (v, cs1) =>
      match skipWs cs1 with
      | ',' :: cs2 => parseElems f (skipWs cs2) (acc ++ [v])
      | ']' :: cs2 => some (acc ++ [v], cs2)
      | _ => none

/-- Parse a string body (after the opening quote); `\uXXXX` is not modelled. -/
def parseStr : Nat → List Char → String → Option (String × List Char)
  | 0, _, _ => none
  | f + 1, cs, acc =>
    match cs with
    | [] => none
    | '"' :: rest => some (acc, rest)
    | '\\' :: e :: rest =>
      if e == '"' then parseStr f rest (acc.push '"')
      else if e == '\\' then parseStr f rest (acc.push '\\')
      else if e == '/' then parseStr f rest (acc.push '/')
      else if e == 'n' then parseStr f rest (acc.push '\n')
      else if e == 't' then parseStr f rest (acc.push '\t')
      else if e == 'r' then parseStr f rest (acc.push '\r')
      else if e == 'b' then parseStr f rest (acc.push (Char.ofNat 8))
      else if e == 'f' then parseStr f rest (acc.push (Char.ofNat 12))
      else none
    | c :: rest => parseStr f rest (acc.push c)

end

/-- `json.loads` over a character list: whole-input parse with
whitespace allowed on both sides.  `none` models `JSONDecodeError`. -/
def jsonLoadsChars (cs : List Char) : Option PyVal :=
  match parseValue (cs.length * 4 + 16) (skipWs cs) with
  | some (v, rest) => if (skipWs rest).isEmpty then some v else none
  | Option.none => none

/-- `json.loads` on a string. -/
def jsonLoadsStr (s : String) : Option PyVal :=
  jsonLoadsChars s.data

/-- Python `str.strip` whitespace (ASCII whitespace; the rarer Unicode
whitespace Python also strips is not modelled). -/
def pyIsSpace (c : Char) : Bool :=
  c == ' ' || c == '\t' || c == '\n' || c == '\r' || c == '\x0b' || c == '\x0c'

/-- Python `str.strip()` on a character list. -/
def pyStrip (cs : List Char) : List Char :=
  ((cs.dropWhile pyIsSpace).reverse.dropWhile pyIsSpace).reverse

/-- `environment._normalize_eval_result`: if the value is a string whose
stripped content looks like a JSON object or array, attempt a second
decode; on failure keep the original string unchanged. -/
def _normalize_eval_result (v : PyVal) : PyVal :=
  match v with
  | .str val =>
    let s := pyStrip val.data
    if s.isEmpty then .str val
    else if (s.head? == some '\x7b' && s.getLast? == some '\x7d')
        || (s.head? == some '[' && s.getLast? == some ']') then
      match jsonLoadsChars s with
      | some out => out
      | Option.none => .str val
    else .str val
  | other => other


/-- `environment._extract_int_list`: ints and digit-strings from a
JSON-ish list; booleans skipped; non-list input yields `[]`. -/
def _extract_int_list (value : Option PyVal) : List Int :=
  match value with
  | Option.none => []
  | some PyVal.none => []
  | some (.list xs) =>
    xs.foldr
      (fun v out =>
        match v with
        | PyVal.bool _ => out
        | PyVal.int n => n :: out
        | PyVal.str s =>
          if s.length ≠ 0 ∧ s.data.all Char.isDigit then
            ((s.toNat?.getD 0 : Nat) : Int) :: out
          else out
        | _ => out)
      []
  | some _ => []

/-- One scalar id field: an int or digit-string; booleans skipped. -/
def scalarIntField (v : Option PyVal) : List Int :=
  match v with
  | some (PyVal.int n) => [n]
  | some (PyVal.str s) =>
    if s.length ≠ 0 ∧ s.data.all Char.isDigit then
      [((s.toNat?.getD 0 : Nat) : Int)]
    else []
  | _ => []

/-- `sorted({i for i in ids if i > 0})`: sorted duplicate-free positives. -/
def sortedDedup (xs : List Int) : List Int :=
  List.insertionSort (· ≤ ·) (xs.filter (fun i => 0 < i)).dedup

/-- The deduplicated must-be-owned id set of a command: `entities`,
`entity`, `garrisonHolder`, `garrisonHolders`. -/
def ownedIdsOf (cmd : PyDict) : List Int :=
  sortedDedup
    (_extract_int_list (pyGet cmd "entities")
      ++ scalarIntField (pyGet cmd "entity")
      ++ scalarIntField (pyGet cmd "garrisonHolder")
      ++ _extract_int_list (pyGet cmd "garrisonHolders"))

/-- The deduplicated must-exist id set of a command: `target`. -/
def mustExistIdsOf (cmd : PyDict) : List Int :=
  sortedDedup (scalarIntField (pyGet cmd "target"))

/-- `json.dumps` of an int list with `","` separator. -/
def dumpsIntList (xs : List Int) : String :=
  "[" ++ String.intercalate "," (xs.map toString) ++ "]"

/-- The ownership/existence probe expression built by
`_validate_sim_command` (exact JS template from the source). -/
def validationCode (player_id : Int) (owned exist : List Int) : String :=
  "(function()\x7b"
    ++ "var playerId=" ++ toString player_id ++ ";"
    ++ "var ownedIds=" ++ dumpsIntList owned ++ ";"
    ++ "var existIds=" ++ dumpsIntList exist ++ ";"
    ++ "var missing=[];"
    ++ "var wrongOwner=[];"
    ++ "function exists(id)\x7b"
    ++ "  return !!(Engine.QueryInterface(id,IID_Ownership) || Engine.QueryInterface(id,IID_Identity) || Engine.QueryInterface(id,IID_Position));"
    ++ "\x7d"
    ++ "for (var i=0;i<ownedIds.length;i++)\x7b"
    ++ "  var id=ownedIds[i];"
    ++ "  var cmpOwn=Engine.QueryInterface(id,IID_Ownership);"
    ++ "  if (!cmpOwn)\x7b missing.push(id); continue; \x7d"
    ++ "  var owner = typeof cmpOwn.GetOwner === 'function' ? cmpOwn.GetOwner() : cmpOwn.owner;"
    ++ "  if (owner !== playerId) wrongOwner.push(\x7bid:id, owner:owner\x7d);"
    ++ "\x7d"
    ++ "for (var j=0;j<existIds.length;j++)\x7b"
    ++ "  var tid=existIds[j];"
    ++ "  if (!exists(tid)) missing.push(tid);"
    ++ "\x7d"
    ++ "if (missing.length || wrongOwner.length)\x7b"
    ++ "  return \x7bok:false, missing:missing, wrongOwner:wrongOwner\x7d;"
    ++ "\x7d"
    ++ "return \x7bok:true\x7d;"
    ++ "\x7d)()"

/-- The engine-clock probe expression built by `_get_sim_time`
(exact JS template from the source). -/
def getSimTimeCode : String :=
  "(function()\x7b"
    ++ "var cmpTimer=Engine.QueryInterface(SYSTEM_ENTITY,IID_Timer);"
    ++ "if(!cmpTimer) return \x7berror:'no IID_Timer'\x7d;"
    ++ "var t=typeof cmpTimer.GetTime==='function'?cmpTimer.GetTime():-1;"
    ++ "return \x7btime:t\x7d;"
    ++ "\x7d)()"

/-- One call made against the RL interface client. -/
inductive EngineCall where
  | evaluate (code : String)
  | push_command (player_id : Int) (cmd : PyDict)

/-- The RL interface client, modelled at method granularity: stateful
`eval`/`push`, `.error` modelling a raised exception carrying `str(e)`. -/
structure Engine (E : Type) where
  eval : E → String → Except String PyVal × E
  push : E → Int → PyDict → Except String PyVal × E

/-- `models.ZeroADState` (server-side session state). -/
structure ZeroADState where
  episode_id : Option String
  step_count : Int
  rl_url : String
  last_sim_time : Option Rat
  stepper_detected : Option Bool

/-- `models.ZeroADObservation`. -/
structure ZeroADObservation where
  ok : Bool
  result : PyVal
  error : Option String
  episode_id : Option String
  step_count : Int
  stepper_detected : Option Bool
  sim_time : Option Rat

/-- Outcome of one session operation: an observation or an escaped
exception, the (possibly mutated) session state, the engine state, and
the trace of engine calls performed. -/
structure SessionOutcome (E : Type) where
  res : Except String ZeroADObservation
  st : ZeroADState
  eng : E
  trace : List EngineCall

/-- The `ok=false` observation built by `ZeroADSession.step` failure
paths (result left at its `None` default). -/
def failObs (st : ZeroADState) (msg : String) : ZeroADObservation :=
  { ok := false, result := PyVal.none, error := some msg,
    episode_id := st.episode_id, step_count := st.step_count,
    stepper_detected := st.stepper_detected, sim_time := st.last_sim_time }

/-- `ZeroADSession._get_sim_time`: evaluate the clock probe and extract
a numeric `time` field; a non-time result is `none`; an engine
exception propagates (`.error`).  (CPython's `isinstance(x, (int,
float))` also accepts `bool`, hence the `bool` arm.) -/
def _get_sim_time {E : Type} (eng : Engine E) (e : E) :
    Except String (Option Rat) × E :=
  match eng.eval e getSimTimeCode with
  | (.error m, e') => (.error m, e')
  | (.ok v, e') =>
    match _normalize_eval_result v with
    | .dict kvs =>
      match pyGet kvs "time" with
      | some (.int n) => (.ok (some (n : Rat)), e')
      | some (.float q) => (.ok (some q), e')
      | some (.bool b) => (.ok (some (if b then 1 else 0)), e')
      | _ => (.ok (Option.none), e')
    | _ => (.ok (Option.none), e')

/-- `", ".join(parts)`. -/
def strJoinCommaSp : List String → String
  | [] => ""
  | [s] => s
  | s :: t :: rest => s ++ ", " ++ strJoinCommaSp (t :: rest)

/-- `isinstance(v, (int, float))` on an optional field (CPython also
accepts `bool` here, since `bool` is a subclass of `int`). -/
def pyNumLike : Option PyVal → Bool
  | some (PyVal.int _) => true
  | some (PyVal.float _) => true
  | some (PyVal.bool _) => true
  | _ => false

/-- `cmd.get("type") == "walk"`. -/
def isWalkCmd (cmd : PyDict) : Bool :=
  match pyGet cmd "type" with
  | some (.str t) => t == "walk"
  | _ => false

/-- `ZeroADSession._validate_sim_command`: returns a validation error
string or `none`, the engine state, and the trace of its own round
trips (at most one `evaluate`; a probe exception is caught and becomes
`validation_failed: ...`). -/
def _validate_sim_command {E : Type} (eng : Engine E) (e : E)
    (player_id : Int) (cmd : PyDict) :
    Option String × E × List EngineCall :=
  let owned := ownedIdsOf cmd
  let must_exist := mustExistIdsOf cmd
  if isWalkCmd cmd && owned.isEmpty then
    (some "walk requires non-empty 'entities'", e, [])
  else if isWalkCmd cmd
      && (!(pyNumLike (pyGet cmd "x")) || !(pyNumLike (pyGet cmd "z"))) then
    (some "walk requires numeric 'x' and 'z'", e, [])
  else if owned.isEmpty && must_exist.isEmpty then
    (Option.none, e, [])
  else
    let code := validationCode player_id owned must_exist
    match eng.eval e code with
    | (.error m, e') =>
      (some ("validation_failed: " ++ m), e', [.evaluate code])
    | (.ok v, e') =>
      match _normalize_eval_result v with
      | .dict kvs =>
        match pyGet kvs "ok" with
        | some (.bool false) =>
          let parts : List String :=
            (match pyGet kvs "missing" with
             | some (.list (m :: ms)) =>
               ["missing=" ++ pyRepr (.list (m :: ms))]
             | _ => []) ++
            (match pyGet kvs "wrongOwner" with
             | some (.list (w :: ws)) =>
               ["wrongOwner=" ++ pyRepr (.list (w :: ws))]
             | _ => [])
          (some ("invalid_entity_ids: " ++ strJoinCommaSp parts), e',
            [.evaluate code])
        | _ => (Option.none, e', [.evaluate code])
      | _ => (Option.none, e', [.evaluate code])

/-- `models.PushCommandAction` / `models.EvaluateAction` after decoding. -/
inductive ZAction where
  | push_command (player_id : Int) (cmd : PyDict)
  | evaluate (code : String)

/-- Decoding an action dict against the discriminated union
(`TypeAdapter(ZeroADAction).validate_python`): tag field `op`,
`extra="forbid"`, `player_id : int ≥ 0`, `code : str` with
`min_length=1`.  `.error` models a raised `ValidationError` (its exact
message text is abstracted; pydantic's lax numeric-string coercions are
not modelled). -/
def decodeAction (v : PyVal) : Except String ZAction :=
  match v with
  | .dict kvs =>
    match pyGet kvs "op" with
    | some (.str "push_command") =>
      if kvs.all (fun p => p.1 == "op" || p.1 == "player_id" || p.1 == "cmd") then
        match pyGet kvs "player_id", pyGet kvs "cmd" with
        | some (.int n), some (.dict cmd) =>
          if 0 ≤ n then .ok (.push_command n cmd)
          else .error "player_id: input should be greater than or equal to 0"
        | _, _ => .error "push_command: invalid or missing fields"
      else .error "push_command: extra inputs are not permitted"
    | some (.str "evaluate") =>
      if kvs.all (fun p => p.1 == "op" || p.1 == "code") then
        match pyGet kvs "code" with
        | some (.str s) =>
          if 1 ≤ s.length then .ok (.evaluate s)
          else .error "code: string should have at least 1 character"
        | _ => .error "evaluate: invalid or missing fields"
      else .error "evaluate: extra inputs are not permitted"
    | _ => .error "unable to extract tag using discriminator 'op'"
  | _ => .error "input should be a valid dictionary"

/-- The success tail of `ZeroADSession.step` (source lines 291-306):
normalize the result, increment `step_count`, best-effort clock
refresh (a probe that *returns* no reading is silent; a probe that
*raises* propagates), and build the `ok=true` observation. -/
def stepFinish {E : Type} (eng : Engine E) (e : E) (tr : List EngineCall)
    (st : ZeroADState) (result : PyVal) : SessionOutcome E :=
  let result := _normalize_eval_result result
  let st1 : ZeroADState :=
    { episode_id := st.episode_id, step_count := st.step_count + 1,
      rl_url := st.rl_url, last_sim_time := st.last_sim_time,
      stepper_detected := st.stepper_detected }
  match _get_sim_time eng e with
  | (.error m, e') => ⟨.error m, st1, e', tr ++ [.evaluate getSimTimeCode]⟩
  | (.ok t, e') =>
    let st2 : ZeroADState :=
      match t with
      | some tv =>
        { episode_id := st1.episode_id, step_count := st1.step_count,
          rl_url := st1.rl_url, last_sim_time := some tv,
          stepper_detected := st1.stepper_detected }
      | Option.none => st1
    ⟨.ok { ok := true, result := result, error := Option.none,
           episode_id := st2.episode_id, step_count := st2.step_count,
           stepper_detected := st2.stepper_detected,
           sim_time := st2.last_sim_time },
      st2, e', tr ++ [.evaluate getSimTimeCode]⟩

/-- `ZeroADSession.step`.  The action decode happens before the
`try`/`except`, so a failed decode escapes as an exception
(`.error`); validation failure and forwarding exceptions are converted
to `ok=false` observations; `timeout_s` is accepted and ignored by the
source. -/
def sessionStep {E : Type} (eng : Engine E) (e : E) (st : ZeroADState)
    (action_dict : PyVal) (_timeout_s : Option Rat) : SessionOutcome E :=
  match decodeAction action_dict with
  | .error msg => ⟨.error msg, st, e, []⟩
  | .ok (ZAction.push_command pid cmd) =>
    match _validate_sim_command eng e pid cmd with
    | (some err, e1, tr1) => ⟨.ok (failObs st err), st, e1, tr1⟩
    | (Option.none, e1, tr1) =>
      match eng.push e1 pid cmd with
      | (.error m, e2) =>
        ⟨.ok (failObs st m), st, e2, tr1 ++ [.push_command pid cmd]⟩
      | (.ok r, e2) => stepFinish eng e2 (tr1 ++ [.push_command pid cmd]) st r
  | .ok (ZAction.evaluate code) =>
    match eng.eval e code with
    | (.error m, e1) => ⟨.ok (failObs st m), st, e1, [.evaluate code]⟩
    | (.ok r, e1) => stepFinish eng e1 [.evaluate code] st r

/-- `episode_id or str(uuid.uuid4())`: the client value unless falsy
(absent or the empty string), else the fresh uuid. -/
def chooseEpisodeId (episode_id : Option String) (freshId : String) : String :=
  match episode_id with
  | some s => if s.length == 0 then freshId else s
  | Option.none => freshId

/-- `stepper_detected`: `t2 > t1`, or `None` if either reading is
unavailable. -/
def stepperFlag (t1 t2 : Option Rat) : Option Bool :=
  match t1, t2 with
  | some a, some b => some (decide (a < b))
  | _, _ => Option.none

/-- `t2 if t2 is not None else t1`: the later available clock reading. -/
def laterReading (t1 t2 : Option Rat) : Option Rat :=
  match t2 with
  | some b => some b
  | Option.none => t1

/-- `ZeroADSession.reset`: assign `episode_id` (client value unless
falsy, else the fresh uuid), zero `step_count`, ping with `"1+1"`
(failure → `ok=false` observation with liveness state untouched),
then sample the clock twice (`time.sleep` between the samples is not
modelled; an exception from either sample escapes). -/
def sessionReset {E : Type} (eng : Engine E) (e : E) (st : ZeroADState)
    (seed : Option Int) (episode_id : Option String) (freshId : String) :
    SessionOutcome E :=
  let epid : String := chooseEpisodeId episode_id freshId
  let st1 : ZeroADState :=
    { episode_id := some epid, step_count := 0, rl_url := st.rl_url,
      last_sim_time := st.last_sim_time,
      stepper_detected := st.stepper_detected }
  match eng.eval e "1+1" with
  | (.error m, e1) =>
    ⟨.ok { ok := false, result := PyVal.none,
           error := some ("rl_interface_unreachable: " ++ m),
           episode_id := some epid, step_count := 0,
           stepper_detected := Option.none, sim_time := Option.none },
      st1, e1, [.evaluate "1+1"]⟩
  | (.ok pingRaw, e1) =>
    let ping := _normalize_eval_result pingRaw
    match _get_sim_time eng e1 with
    | (.error m, e2) =>
      ⟨.error m, st1, e2, [.evaluate "1+1", .evaluate getSimTimeCode]⟩
    | (.ok t1, e2) =>
      match _get_sim_time eng e2 with
      | (.error m, e3) =>
        ⟨.error m, st1, e3,
          [.evaluate "1+1", .evaluate getSimTimeCode, .evaluate getSimTimeCode]⟩
      | (.ok t2, e3) =>
        let sd : Option Bool := stepperFlag t1 t2
        let lst : Option Rat := laterReading t1 t2
        let st2 : ZeroADState :=
          { episode_id := some epid, step_count := 0, rl_url := st.rl_url,
            last_sim_time := lst, stepper_detected := sd }
        ⟨.ok { ok := true,
               result := .dict
                 [("ping", ping),
                  ("seed", match seed with
                           | some n => .int n
                           | Option.none => PyVal.none)],
               error := Option.none, episode_id := some epid, step_count := 0,
               stepper_detected := sd, sim_time := lst },
          st2, e3,
          [.evaluate "1+1", .evaluate getSimTimeCode, .evaluate getSimTimeCode]⟩

/-- The `{observation, reward, done}` envelope of `StepResponse` /
`ResetResponse` (reward always `None`, done always `False`). -/
structure Envelope where
  observation : ZeroADObservation
  reward : Option Rat
  done : Bool

/-- The `POST /step` handler: decode already done by FastAPI
(`StepRequest.action` is any dict), call `session.step(action,
timeout_s=...)`, wrap in the envelope.  A session exception surfaces
as a transport-level error (`.error`). -/
def httpStep {E : Type} (eng : Engine E) (e : E) (st : ZeroADState)
    (action : PyVal) (timeout_s : Option Rat) :
    Except String Envelope × ZeroADState × E × List EngineCall :=
  let o := sessionStep eng e st action timeout_s
  match o.res with
  | .ok obs => (.ok ⟨obs, Option.none, false⟩, o.st, o.eng, o.trace)
  | .error m => (.error m, o.st, o.eng, o.trace)

/-- The `POST /reset` handler. -/
def httpReset {E : Type} (eng : Engine E) (e : E) (st : ZeroADState)
    (seed : Option Int) (episode_id : Option String) (freshId : String) :
    Except String Envelope × ZeroADState × E × List EngineCall :=
  let o := sessionReset eng e st seed episode_id freshId
  match o.res with
  | .ok obs => (.ok ⟨obs, Option.none, false⟩, o.st, o.eng, o.trace)
  | .error m => (.error m, o.st, o.eng, o.trace)

/-- Decoding `ResetRequest.model_validate(data)`: `extra="allow"`,
`seed : Optional[int] ge 0`, `episode_id : Optional[str] max_length
255`.  `.error` models a raised `ValidationError`. -/
def decodeResetRequest (v : PyVal) :
    Except String (Option Int × Option String) :=
  match v with
  | .dict kvs =>
    let seedR : Except String (Option Int) :=
      match pyGet kvs "seed" with
      | Option.none => .ok Option.none
      | some PyVal.none => .ok Option.none
      | some (.int n) =>
        if 0 ≤ n then .ok (some n)
        else .error "seed: input should be greater than or equal to 0"
      | some _ => .error "seed: input should be a valid integer"
    let epR : Except String (Option String) :=
      match pyGet kvs "episode_id" with
      | Option.none => .ok Option.none
      | some PyVal.none => .ok Option.none
      | some (.str s) =>
        if s.length ≤ 255 then .ok (some s)
        else .error "episode_id: string should have at most 255 characters"
      | some _ => .error "episode_id: input should be a valid string"
    match seedR, epR with
    | .ok a, .ok b => .ok (a, b)
    | .error m, _ => .error m
    | _, .error m => .error m
  | _ => .error "input should be a valid dictionary"

/-- One outbound frame on the websocket (the dict passed to
`json.dumps`, modelled structurally). -/
inductive WsFrame where
  | observation (env : Envelope)
  | state (st : ZeroADState)
  | error (message : String) (code : String)

/-- Result of handling one inbound websocket message: frames sent, the
session and engine state afterwards, and whether the loop continues
(`next`), breaks (`closed`), or dies on an uncaught exception
(`raised`). -/
inductive WsOutcome (E : Type) where
  | next (sent : List WsFrame) (st : ZeroADState) (e : E)
  | closed (sent : List WsFrame) (st : ZeroADState) (e : E)
  | raised (msg : String) (st : ZeroADState) (e : E)

/-- `msg.get("data") or {}`. -/
def dataOrEmpty (kvs : List (String × PyVal)) : PyVal :=
  match pyGet kvs "data" with
  | some v => if pyTruthy v then v else .dict []
  | Option.none => .dict []

/-- Dispatch of one decoded websocket message (`server.py` lines
91-155): `msg.get("type")` runs *outside* the inner `try`, so a
non-dict message raises an `AttributeError` that no handler catches
(`raised`); exceptions inside the dispatch (including session
exceptions) become `error`/`EXECUTION_ERROR` frames and the loop
continues. -/
def dispatchWs {E : Type} (eng : Engine E) (e : E) (st : ZeroADState)
    (msg : PyVal) (freshId : String) : WsOutcome E :=
  match msg with
  | .dict kvs =>
    let mt := pyGet kvs "type"
    let mtIs : String → Bool := fun s =>
      match mt with
      | some (.str t) => t == s
      | _ => false
    if mtIs "reset" then
      match decodeResetRequest (dataOrEmpty kvs) with
      | .error m => .next [.error m "EXECUTION_ERROR"] st e
      | .ok (seed, epid) =>
        let o := sessionReset eng e st seed epid freshId
        match o.res with
        | .ok obs => .next [.observation ⟨obs, Option.none, false⟩] o.st o.eng
        | .error m => .next [.error m "EXECUTION_ERROR"] o.st o.eng
    else if mtIs "step" then
      let o := sessionStep eng e st (dataOrEmpty kvs) Option.none
      match o.res with
      | .ok obs => .next [.observation ⟨obs, Option.none, false⟩] o.st o.eng
      | .error m => .next [.error m "EXECUTION_ERROR"] o.st o.eng
    else if mtIs "state" then
      .next [.state st] st e
    else if mtIs "close" then
      .closed [] st e
    else
      .next
        [.error
          ("Unknown message type: "
            ++ (match mt with
                | some v => pyStr v
                | Option.none => "None"))
          "UNKNOWN_TYPE"]
        st e
  | other =>
    .raised ("'" ++ pyTypeName other ++ "' object has no attribute 'get'") st e

/-- Handling one inbound websocket text frame (`server.py` lines
74-155): non-JSON text yields `error`/`INVALID_JSON` and the loop
continues; otherwise dispatch.  (The stdlib decoder's exception text
inside the message is abstracted.) -/
def handleWs {E : Type} (eng : Engine E) (e : E) (st : ZeroADState)
    (raw : String) (freshId : String) : WsOutcome E :=
  match jsonLoadsStr raw with
  | Option.none =>
    .next [.error "Invalid JSON: Expecting value" "INVALID_JSON"] st e
  | some msg => dispatchWs eng e st msg freshId

/-! ### Concrete fixtures for witnesses and counterexamples -/

/-- A default session state (as built by `ZeroADSession.__init__`). -/
def st0 : ZeroADState :=
  { episode_id := Option.none, step_count := 0,
    rl_url := "http://127.0.0.1:6000", last_sim_time := Option.none,
    stepper_detected := Option.none }

/-- An engine that answers every `evaluate` with `2` and every
`push_command` with `{ok: true}`. -/
def okEngine : Engine Unit :=
  { eval := fun _ _ => (.ok (.int 2), ()),
    push := fun _ _ _ => (.ok (.dict [("ok", .bool true)]), ()) }

/-- An engine whose every call raises (connection refused). -/
def raisingEngine : Engine Unit :=
  { eval := fun _ _ => (.error "connection refused", ()),
    push := fun _ _ _ => (.error "connection refused", ()) }

/-- A scripted engine: each call consumes the next canned response. -/
def scriptEngine : Engine (List (Except String PyVal)) :=
  { eval := fun e _ =>
      match e with
      | [] => (.error "script exhausted", [])
      | r :: rest => (r, rest),
    push := fun e _ _ =>
      match e with
      | [] => (.error "script exhausted", [])
      | r :: rest => (r, rest) }

/-- The well-formed `evaluate` action dict `{"op": "evaluate", "code": "1+1"}`. -/
def evalDict : PyVal :=
  .dict [("op", .str "evaluate"), ("code", .str "1+1")]

/-- A `push_command` action dict built from a player id and command. -/
def pushDict (pid : Int) (cmd : PyDict) : PyVal :=
  .dict [("op", .str "push_command"), ("player_id", .int pid),
         ("cmd", .dict cmd)]

/-- A walk command naming a single actor id: `{"type": "walk",
"entities": [m], "x": 1, "z": 2}`. -/
def walkCmdOn (m : Int) : PyDict :=
  [("type", .str "walk"), ("entities", .list [.int m]),
   ("x", .int 1), ("z", .int 2)]

/-- The probe response reporting id `m` as missing:
`{ok: false, missing: [m], wrongOwner: []}`. -/
def probeMissing (m : Int) : PyVal :=
  .dict [("ok", .bool false), ("missing", .list [.int m]),
         ("wrongOwner", .list [])]

/-! ### Helper lemmas -/

/-- Strings with equal character data are equal. -/
theorem strEqOfData {a b : String} (h : a.data = b.data) : a = b := by
  cases a; cases b; exact congrArg String.mk h

/-- A successful object-body parse yields a `dict`. -/
theorem parseObj_dict {f : Nat} {cs : List Char} {v : PyVal}
    {r : List Char} (h : parseObj f cs = some (v, r)) :
    ∃ kvs, v = PyVal.dict kvs := by
  cases f with
  | zero => simp [parseObj] at h
  | succ f =>
    unfold parseObj at h
    split at h
    · simp only [Option.some.injEq, Prod.mk.injEq] at h
      exact ⟨[], h.1.symm⟩
    · rcases Option.map_eq_some'.mp h with ⟨p, _, hpe⟩
      simp only [Prod.mk.injEq] at hpe
      exact ⟨p.1, hpe.1.symm⟩

/-- A successful array-body parse yields a `list`. -/
theorem parseArr_list {f : Nat} {cs : List Char} {v : PyVal}
    {r : List Char} (h : parseArr f cs = some (v, r)) :
    ∃ xs, v = PyVal.list xs := by
  cases f with
  | zero => simp [parseArr] at h
  | succ f =>
    unfold parseArr at h
    split at h
    · simp only [Option.some.injEq, Prod.mk.injEq] at h
      exact ⟨[], h.1.symm⟩
    · rcases Option.map_eq_some'.mp h with ⟨p, _, hpe⟩
      simp only [Prod.mk.injEq] at hpe
      exact ⟨p.1, hpe.1.symm⟩

/-- `jsonLoadsChars` on input whose first character is `\x7b` can only
produce a `dict`. -/
theorem jsonLoads_brace {s : List Char} {v : PyVal}
    (hh : s.head? = some '\x7b') (h : jsonLoadsChars s = some v) :
    ∃ kvs, v = PyVal.dict kvs := by
  obtain ⟨t, rfl⟩ : ∃ t, s = '\x7b' :: t := by
    cases s with
    | nil => simp at hh
    | cons c cs =>
      simp only [List.head?_cons, Option.some.injEq] at hh
      exact ⟨cs, by rw [hh]⟩
  unfold jsonLoadsChars at h
  have hsk : skipWs ('\x7b' :: t) = '\x7b' :: t := by
    unfold skipWs; simp [isWs]
  rw [hsk] at h
  obtain ⟨k, hk⟩ : ∃ k, ('\x7b' :: t).length * 4 + 16 = k + 1 :=
    ⟨('\x7b' :: t).length * 4 + 15, by omega⟩
  rw [hk] at h
  have hpv : parseValue (k + 1) ('\x7b' :: t) = parseObj k (skipWs t) := by
    unfold parseValue; simp
  rw [hpv] at h
  rcases hpo : parseObj k (skipWs t) with _ | pr
  · rw [hpo] at h; simp at h
  · rw [hpo] at h
    rcases pr with ⟨pv, prest⟩
    by_cases hrest : (skipWs prest).isEmpty
    · simp only [hrest, if_true, Option.some.injEq] at h
      exact h ▸ parseObj_dict hpo
    · simp [hrest] at h

/-- `jsonLoadsChars` on input whose first character is `[` can only
produce a `list`. -/
theorem jsonLoads_bracket {s : List Char} {v : PyVal}
    (hh : s.head? = some '[') (h : jsonLoadsChars s = some v) :
    ∃ xs, v = PyVal.list xs := by
  obtain ⟨t, rfl⟩ : ∃ t, s = '[' :: t := by
    cases s with
    | nil => simp at hh
    | cons c cs =>
      simp only [List.head?_cons, Option.some.injEq] at hh
      exact ⟨cs, by rw [hh]⟩
  unfold jsonLoadsChars at h
  have hsk : skipWs ('[' :: t) = '[' :: t := by
    unfold skipWs; simp [isWs]
  rw [hsk] at h
  obtain ⟨k, hk⟩ : ∃ k, ('[' :: t).length * 4 + 16 = k + 1 :=
    ⟨('[' :: t).length * 4 + 15, by omega⟩
  rw [hk] at h
  have hpv : parseValue (k + 1) ('[' :: t) = parseArr k (skipWs t) := by
    unfold parseValue; simp
  rw [hpv] at h
  rcases hpo : parseArr k (skipWs t) with _ | pr
  · rw [hpo] at h; simp at h
  · rw [hpo] at h
    rcases pr with ⟨pv, prest⟩
    by_cases hrest : (skipWs prest).isEmpty
    · simp only [hrest, if_true, Option.some.injEq] at h
      exact h ▸ parseArr_list hpo
    · simp [hrest] at h

/-- Normalization either fixes the value or turns it into a `dict` or
`list`. -/
theorem normalize_shape (v : PyVal) :
    _normalize_eval_result v = v
    ∨ (∃ kvs, _normalize_eval_result v = PyVal.dict kvs)
    ∨ (∃ xs, _normalize_eval_result v = PyVal.list xs) := by
  cases v with
  | str val =>
    unfold _normalize_eval_result
    by_cases h1 : (pyStrip val.data).isEmpty
    · left; simp [h1]
    · by_cases h2 : ((pyStrip val.data).head? == some '\x7b'
          && (pyStrip val.data).getLast? == some '\x7d')
          || ((pyStrip val.data).head? == some '['
          && (pyStrip val.data).getLast? == some ']')
      · rcases hj : jsonLoadsChars (pyStrip val.data) with _ | out
        · left; simp [h1, h2, hj]
        · have hres : _normalize_eval_result (.str val) = out := by
            unfold _normalize_eval_result
            simp [h1, h2, hj]
          simp only [Bool.or_eq_true, Bool.and_eq_true, beq_iff_eq] at h2
          rcases h2 with ⟨hhd, _⟩ | ⟨hhd, _⟩
          · rcases jsonLoads_brace hhd hj with ⟨kvs, rfl⟩
            right; left; exact ⟨kvs, hres⟩
          · rcases jsonLoads_bracket hhd hj with ⟨xs, rfl⟩
            right; right; exact ⟨xs, hres⟩
      · left; simp [h1, h2]
  | none => left; rfl
  | bool b => left; rfl
  | int n => left; rfl
  | float q => left; rfl
  | list xs => left; rfl
  | dict kvs => left; rfl

/-- Normalization is idempotent. -/
theorem normalizeEval_idem (v : PyVal) :
    _normalize_eval_result (_normalize_eval_result v)
      = _normalize_eval_result v := by
  rcases normalize_shape v with h | ⟨kvs, h⟩ | ⟨xs, h⟩
  · rw [h, h]
  · rw [h]; rfl
  · rw [h]; rfl

/-- C4: the result-normalization function is idempotent —
`normalize(normalize(v)) = normalize(v)` for every value; normalizing
the string `"\x7b\"a\":1\x7d"` yields the object `\x7ba: 1\x7d`; and
normalizing `"not json"` returns the original string unchanged. -/
theorem claim_C4_normalize_idempotent :
    (∀ v : PyVal,
      _normalize_eval_result (_normalize_eval_result v)
        = _normalize_eval_result v)
    ∧ _normalize_eval_result (.str "\x7b\"a\":1\x7d")
        = PyVal.dict [("a", .int 1)]
    ∧ _normalize_eval_result (.str "not json") = .str "not json" :=
  ⟨normalizeEval_idem, rfl, rfl⟩

/-- Exhaustive description of the success tail of `step`: the clock
probe either raises (the exception escapes, after the increment),
returns a reading (refreshing `last_sim_time`), or returns none
(silently keeping `last_sim_time`). -/
theorem stepFinish_cases {E : Type} (eng : Engine E) (e : E)
    (tr : List EngineCall) (st : ZeroADState) (r : PyVal) :
    (∃ m e', _get_sim_time eng e = (.error m, e') ∧
      stepFinish eng e tr st r =
        ⟨.error m,
          { episode_id := st.episode_id, step_count := st.step_count + 1,
            rl_url := st.rl_url, last_sim_time := st.last_sim_time,
            stepper_detected := st.stepper_detected },
          e', tr ++ [.evaluate getSimTimeCode]⟩)
    ∨ (∃ tv e', _get_sim_time eng e = (.ok (some tv), e') ∧
      stepFinish eng e tr st r =
        ⟨.ok { ok := true, result := _normalize_eval_result r,
               error := Option.none, episode_id := st.episode_id,
               step_count := st.step_count + 1,
               stepper_detected := st.stepper_detected,
               sim_time := some tv },
          { episode_id := st.episode_id, step_count := st.step_count + 1,
            rl_url := st.rl_url, last_sim_time := some tv,
            stepper_detected := st.stepper_detected },
          e', tr ++ [.evaluate getSimTimeCode]⟩)
    ∨ (∃ e', _get_sim_time eng e = (.ok Option.none, e') ∧
      stepFinish eng e tr st r =
        ⟨.ok { ok := true, result := _normalize_eval_result r,
               error := Option.none, episode_id := st.episode_id,
               step_count := st.step_count + 1,
               stepper_detected := st.stepper_detected,
               sim_time := st.last_sim_time },
          { episode_id := st.episode_id, step_count := st.step_count + 1,
            rl_url := st.rl_url, last_sim_time := st.last_sim_time,
            stepper_detected := st.stepper_detected },
          e', tr ++ [.evaluate getSimTimeCode]⟩) := by
  rcases hg : _get_sim_time eng e with ⟨g, e'⟩
  rcases g with m | t
  · exact Or.inl ⟨m, e', rfl, by unfold stepFinish; rw [hg]⟩
  · rcases t with _ | tv
    · exact Or.inr (Or.inr ⟨e', rfl, by unfold stepFinish; rw [hg]⟩)
    · exact Or.inr (Or.inl ⟨tv, e', rfl, by unfold stepFinish; rw [hg]⟩)


/-- C1 (amended): `step_count` after `reset` is always 0; a step
increments it by exactly 1 iff forwarding succeeds (an `ok=true`
observation, or the post-success probe raising after the increment);
after a validation rejection or a caught forwarding exception
(`ok=false`) and after a schema error (raise with no engine call) it
is unchanged. -/
theorem claim_C1_step_count {E : Type} (eng : Engine E) (e : E)
    (st : ZeroADState) (seed : Option Int) (epid : Option String)
    (fresh : String) (v : PyVal) (t? : Option Rat) :
    (sessionReset eng e st seed epid fresh).st.step_count = 0
    ∧ (∀ obs, (sessionStep eng e st v t?).res = .ok obs →
        (obs.ok = true →
          (sessionStep eng e st v t?).st.step_count = st.step_count + 1)
        ∧ (obs.ok = false →
          (sessionStep eng e st v t?).st.step_count = st.step_count))
    ∧ (∀ m, (sessionStep eng e st v t?).res = .error m →
        ((sessionStep eng e st v t?).trace = [] →
          (sessionStep eng e st v t?).st = st)
        ∧ ((sessionStep eng e st v t?).trace ≠ [] →
          (sessionStep eng e st v t?).st.step_count = st.step_count + 1)) := by
  refine ⟨?_, ?_⟩
  · unfold sessionReset
    rcases eng.eval e "1+1" with ⟨mr, e1⟩
    rcases mr with m | ping
    · rfl
    · dsimp only
      rcases _get_sim_time eng e1 with ⟨g1, e2⟩
      rcases g1 with m | t1
      · rfl
      · dsimp only
        rcases _get_sim_time eng e2 with ⟨g2, e3⟩
        rcases g2 with m | t2 <;> rfl
  · unfold sessionStep
    rcases decodeAction v with m | a
    · dsimp only
      constructor
      · intro obs hobs; cases hobs
      · intro m' _; exact ⟨fun _ => rfl, fun hne => absurd rfl hne⟩
    · rcases a with ⟨pid, cmd⟩ | code
      · dsimp only
        rcases _validate_sim_command eng e pid cmd with ⟨err?, e1, tr1⟩
        rcases err? with _ | err
        · dsimp only
          rcases eng.push e1 pid cmd with ⟨pr, e2⟩
          rcases pr with m | r
          · dsimp only
            constructor
            · intro obs hobs
              injection hobs with h; subst h
              exact ⟨fun h => by simp [failObs] at h, fun _ => rfl⟩
            · intro m' hm'; cases hm'
          · dsimp only
            rcases stepFinish_cases eng e2 (tr1 ++ [.push_command pid cmd]) st r
              with ⟨m', e', _, hsf⟩ | ⟨tv, e', _, hsf⟩ | ⟨e', _, hsf⟩ <;> rw [hsf]
            · constructor
              · intro obs hobs; cases hobs
              · intro m'' _
                refine ⟨fun htr => ?_, fun _ => rfl⟩
                simp at htr
            · constructor
              · intro obs hobs
                injection hobs with h; subst h
                exact ⟨fun _ => rfl, fun h => by simp at h⟩
              · intro m'' hm''; cases hm''
            · constructor
              · intro obs hobs
                injection hobs with h; subst h
                exact ⟨fun _ => rfl, fun h => by simp at h⟩
              · intro m'' hm''; cases hm''
        · dsimp only
          constructor
          · intro obs hobs
            injection hobs with h; subst h
            exact ⟨fun h => by simp [failObs] at h, fun _ => rfl⟩
          · intro m' hm'; cases hm'
      · dsimp only
        rcases eng.eval e code with ⟨er, e1⟩
        rcases er with m | r
        · dsimp only
          constructor
          · intro obs hobs
            injection hobs with h; subst h
            exact ⟨fun h => by simp [failObs] at h, fun _ => rfl⟩
          · intro m' hm'; cases hm'
        · dsimp only
          rcases stepFinish_cases eng e1 [.evaluate code] st r
            with ⟨m', e', _, hsf⟩ | ⟨tv, e', _, hsf⟩ | ⟨e', _, hsf⟩ <;> rw [hsf]
          · constructor
            · intro obs hobs; cases hobs
            · intro m'' _
              refine ⟨fun htr => ?_, fun _ => rfl⟩
              simp at htr
          · constructor
            · intro obs hobs
              injection hobs with h; subst h
              exact ⟨fun _ => rfl, fun h => by simp at h⟩
            · intro m'' hm''; cases hm''
          · constructor
            · intro obs hobs
              injection hobs with h; subst h
              exact ⟨fun _ => rfl, fun h => by simp at h⟩
            · intro m'' hm''; cases hm''

/-- C1 counterexample: an `evaluate` step whose forwarding raises does
reach the engine (non-empty trace) yet leaves `step_count` unchanged —
the claim's "increases by exactly 1 after a forwarding exception" is
false on the code. -/
theorem claim_C1_counterexample :
    (sessionStep raisingEngine () st0 evalDict Option.none).trace
        = [.evaluate "1+1"]
    ∧ (sessionStep raisingEngine () st0 evalDict Option.none).res
        = .ok (failObs st0 "connection refused")
    ∧ (failObs st0 "connection refused").ok = false
    ∧ (sessionStep raisingEngine () st0 evalDict Option.none).st.step_count
        = st0.step_count
    ∧ ¬ (sessionStep raisingEngine () st0 evalDict Option.none).st.step_count
        = st0.step_count + 1 := by
  refine ⟨rfl, rfl, rfl, rfl, by decide⟩

/-- C1 witness: with an engine that answers, reset leaves the counter
at 0 and a successful `evaluate` step increments it once. -/
theorem claim_C1_step_count_witness :
    (sessionReset okEngine () st0 Option.none Option.none "ep-1").st.step_count = 0
    ∧ (sessionStep okEngine () st0 evalDict Option.none).st.step_count
        = st0.step_count + 1 :=
  ⟨(claim_C1_step_count okEngine () st0 Option.none Option.none "ep-1"
      evalDict Option.none).1,
   ((claim_C1_step_count okEngine () st0 Option.none Option.none "ep-1"
      evalDict Option.none).2.1
      { ok := true, result := .int 2, error := Option.none,
        episode_id := Option.none, step_count := 1,
        stepper_detected := Option.none, sim_time := Option.none }
      rfl).1 rfl⟩

/-- C10: reset is not atomic on failure — when the reachability ping
raises, `episode_id` has already been reassigned and `step_count`
zeroed; the `ok=false` observation carries the new `episode_id` and
`step_count` 0 with no liveness fields, while the session state keeps
its prior `last_sim_time` and `stepper_detected`. -/
theorem claim_C10_reset_not_atomic {E : Type} (eng : Engine E) (e e1 : E)
    (st : ZeroADState) (seed : Option Int) (episode_id : Option String)
    (freshId : String) (m : String)
    (h : eng.eval e "1+1" = (.error m, e1)) :
    sessionReset eng e st seed episode_id freshId =
      ⟨.ok { ok := false, result := PyVal.none,
             error := some ("rl_interface_unreachable: " ++ m),
             episode_id := some (chooseEpisodeId episode_id freshId),
             step_count := 0, stepper_detected := Option.none,
             sim_time := Option.none },
        { episode_id := some (chooseEpisodeId episode_id freshId),
          step_count := 0, rl_url := st.rl_url,
          last_sim_time := st.last_sim_time,
          stepper_detected := st.stepper_detected },
        e1, [.evaluate "1+1"]⟩ := by
  unfold sessionReset
  rw [h]

/-- C10 witness: an exhausted script engine raises on the ping; the
session state ends with the fresh episode id, a zeroed counter, and
the prior (default) liveness fields. -/
theorem claim_C10_witness :
    sessionReset scriptEngine [] st0 Option.none Option.none "ep-1" =
      ⟨.ok { ok := false, result := PyVal.none,
             error := some "rl_interface_unreachable: script exhausted",
             episode_id := some "ep-1", step_count := 0,
             stepper_detected := Option.none, sim_time := Option.none },
        { episode_id := some "ep-1", step_count := 0,
          rl_url := "http://127.0.0.1:6000",
          last_sim_time := Option.none, stepper_detected := Option.none },
        [], [.evaluate "1+1"]⟩ :=
  claim_C10_reset_not_atomic scriptEngine [] [] st0 Option.none Option.none
    "ep-1" "script exhausted" rfl

/-- C8: on a reset whose reachability ping succeeds, the session
samples the engine clock twice (two probe calls in the trace);
`stepper_detected` is `second > first`, or `None` if either reading is
unavailable; `last_sim_time` becomes the later available reading; and
the observation is `ok=true` with `result = \x7bping, seed\x7d` and the
updated liveness fields. -/
theorem claim_C8_reset_success {E : Type} (eng : Engine E)
    (e e1 e2 e3 : E) (st : ZeroADState) (seed : Option Int)
    (episode_id : Option String) (freshId : String) (ping : PyVal)
    (t1 t2 : Option Rat)
    (hping : eng.eval e "1+1" = (.ok ping, e1))
    (h1 : _get_sim_time eng e1 = (.ok t1, e2))
    (h2 : _get_sim_time eng e2 = (.ok t2, e3)) :
    sessionReset eng e st seed episode_id freshId =
      ⟨.ok { ok := true,
             result := .dict
               [("ping", _normalize_eval_result ping),
                ("seed", match seed with
                         | some n => .int n
                         | Option.none => PyVal.none)],
             error := Option.none,
             episode_id := some (chooseEpisodeId episode_id freshId),
             step_count := 0, stepper_detected := stepperFlag t1 t2,
             sim_time := laterReading t1 t2 },
        { episode_id := some (chooseEpisodeId episode_id freshId),
          step_count := 0, rl_url := st.rl_url,
          last_sim_time := laterReading t1 t2,
          stepper_detected := stepperFlag t1 t2 },
        e3,
        [.evaluate "1+1", .evaluate getSimTimeCode,
         .evaluate getSimTimeCode]⟩
    ∧ (∀ a b, t1 = some a → t2 = some b →
        stepperFlag t1 t2 = some (decide (a < b)))
    ∧ ((t1 = Option.none ∨ t2 = Option.none) →
        stepperFlag t1 t2 = Option.none)
    ∧ (∀ b, t2 = some b → laterReading t1 t2 = some b)
    ∧ (t2 = Option.none → laterReading t1 t2 = t1) := by
  refine ⟨?_, ?_, ?_, ?_, ?_⟩
  · unfold sessionReset
    rw [hping]
    dsimp only
    rw [h1]
    dsimp only
    rw [h2]
  · intro a b ha hb; rw [ha, hb]; rfl
  · rintro (h | h)
    · subst h; cases t2 <;> rfl
    · subst h; cases t1 <;> rfl
  · intro b hb; subst hb; rfl
  · intro h; subst h; rfl

/-- C8 witness: a script engine answering the ping with `2` and the
two clock probes with times 1 then 2 yields `stepper_detected = true`
and `last_sim_time = 2`. -/
theorem claim_C8_witness :
    sessionReset scriptEngine
      [.ok (.int 2), .ok (.dict [("time", .int 1)]),
       .ok (.dict [("time", .int 2)])]
      st0 (some 7) Option.none "ep-2" =
      ⟨.ok { ok := true,
             result := .dict [("ping", .int 2), ("seed", .int 7)],
             error := Option.none, episode_id := some "ep-2",
             step_count := 0, stepper_detected := some true,
             sim_time := some 2 },
        { episode_id := some "ep-2", step_count := 0,
          rl_url := "http://127.0.0.1:6000", last_sim_time := some 2,
          stepper_detected := some true },
        [],
        [.evaluate "1+1", .evaluate getSimTimeCode,
         .evaluate getSimTimeCode]⟩ :=
  (claim_C8_reset_success scriptEngine
    [.ok (.int 2), .ok (.dict [("time", .int 1)]),
     .ok (.dict [("time", .int 2)])]
    [.ok (.dict [("time", .int 1)]), .ok (.dict [("time", .int 2)])]
    [.ok (.dict [("time", .int 2)])] []
    st0 (some 7) Option.none "ep-2" (.int 2) (some 1) (some 2)
    rfl rfl rfl).1

/-- C5: every observation produced by `reset` or `step` satisfies the
invariant — `ok=false` implies `result` is the `None` default and
`error` is present; `ok=true` implies `error` is absent. -/
theorem claim_C5_obs_invariant {E : Type} (eng : Engine E) (e : E)
    (st : ZeroADState) (v : PyVal) (t? : Option Rat) (seed : Option Int)
    (epid : Option String) (fresh : String) :
    (∀ obs, (sessionStep eng e st v t?).res = .ok obs →
      (obs.ok = false → obs.result = PyVal.none ∧ obs.error ≠ Option.none)
      ∧ (obs.ok = true → obs.error = Option.none))
    ∧ (∀ obs, (sessionReset eng e st seed epid fresh).res = .ok obs →
      (obs.ok = false → obs.result = PyVal.none ∧ obs.error ≠ Option.none)
      ∧ (obs.ok = true → obs.error = Option.none)) := by
  constructor
  · unfold sessionStep
    rcases decodeAction v with m | a
    · intro obs hobs; cases hobs
    · rcases a with ⟨pid, cmd⟩ | code
      · dsimp only
        rcases _validate_sim_command eng e pid cmd with ⟨err?, e1, tr1⟩
        rcases err? with _ | err
        · dsimp only
          rcases eng.push e1 pid cmd with ⟨pr, e2⟩
          rcases pr with m | r
          · dsimp only
            intro obs hobs
            injection hobs with h; subst h
            exact ⟨fun _ => ⟨rfl, by simp [failObs]⟩,
                   fun h => by simp [failObs] at h⟩
          · dsimp only
            rcases stepFinish_cases eng e2 (tr1 ++ [.push_command pid cmd]) st r
              with ⟨m', e', _, hsf⟩ | ⟨tv, e', _, hsf⟩ | ⟨e', _, hsf⟩ <;> rw [hsf]
            · intro obs hobs; cases hobs
            · intro obs hobs
              injection hobs with h; subst h
              exact ⟨fun h => by simp at h, fun _ => rfl⟩
            · intro obs hobs
              injection hobs with h; subst h
              exact ⟨fun h => by simp at h, fun _ => rfl⟩
        · dsimp only
          intro obs hobs
          injection hobs with h; subst h
          exact ⟨fun _ => ⟨rfl, by simp [failObs]⟩,
                 fun h => by simp [failObs] at h⟩
      · dsimp only
        rcases eng.eval e code with ⟨er, e1⟩
        rcases er with m | r
        · dsimp only
          intro obs hobs
          injection hobs with h; subst h
          exact ⟨fun _ => ⟨rfl, by simp [failObs]⟩,
                 fun h => by simp [failObs] at h⟩
        · dsimp only
          rcases stepFinish_cases eng e1 [.evaluate code] st r
            with ⟨m', e', _, hsf⟩ | ⟨tv, e', _, hsf⟩ | ⟨e', _, hsf⟩ <;> rw [hsf]
          · intro obs hobs; cases hobs
          · intro obs hobs
            injection hobs with h; subst h
            exact ⟨fun h => by simp at h, fun _ => rfl⟩
          · intro obs hobs
            injection hobs with h; subst h
            exact ⟨fun h => by simp at h, fun _ => rfl⟩
  · unfold sessionReset
    rcases eng.eval e "1+1" with ⟨mr, e1⟩
    rcases mr with m | ping
    · intro obs hobs
      injection hobs with h; subst h
      exact ⟨fun _ => ⟨rfl, by simp⟩, fun h => by simp at h⟩
    · dsimp only
      rcases _get_sim_time eng e1 with ⟨g1, e2⟩
      rcases g1 with m | t1
      · intro obs hobs; cases hobs
      · dsimp only
        rcases _get_sim_time eng e2 with ⟨g2, e3⟩
        rcases g2 with m | t2
        · intro obs hobs; cases hobs
        · intro obs hobs
          injection hobs with h; subst h
          exact ⟨fun h => by simp at h, fun _ => rfl⟩

/-- C5 witness: the invariant at a concrete failed step (engine raise)
and a concrete successful reset. -/
theorem claim_C5_witness :
    ((failObs st0 "connection refused").ok = false →
      (failObs st0 "connection refused").result = PyVal.none
      ∧ (failObs st0 "connection refused").error ≠ Option.none) ∧
    ((failObs st0 "connection refused").ok = true →
      (failObs st0 "connection refused").error = Option.none) :=
  (claim_C5_obs_invariant raisingEngine () st0 evalDict Option.none
    Option.none Option.none "ep-1").1 (failObs st0 "connection refused") rfl

/-- C3 (amended): the action decode runs before step's `try` block, so
a malformed or unrecognized action dict makes `step` raise the schema
error past its boundary (no engine call, state untouched); after a
successful decode the only way `step` raises is the post-success clock
probe raising (after the increment, last engine call the probe); every
exception raised while forwarding is caught and becomes an `ok=false`
observation; and a probe that returns no reading is silent — the step
still returns `ok=true` with `last_sim_time` unchanged. -/
theorem claim_C3_boundary {E : Type} (eng : Engine E) (e : E)
    (st : ZeroADState) (v : PyVal) (t? : Option Rat) :
    (∀ msg, decodeAction v = .error msg →
      sessionStep eng e st v t? = ⟨.error msg, st, e, []⟩)
    ∧ (∀ a, decodeAction v = .ok a → ∀ m,
        (sessionStep eng e st v t?).res = .error m →
        (sessionStep eng e st v t?).st.step_count = st.step_count + 1
        ∧ (sessionStep eng e st v t?).trace.getLast?
            = some (.evaluate getSimTimeCode))
    ∧ (∀ code m e1, decodeAction v = .ok (.evaluate code) →
        eng.eval e code = (.error m, e1) →
        sessionStep eng e st v t? =
          ⟨.ok (failObs st m), st, e1, [.evaluate code]⟩)
    ∧ (∀ pid cmd e1 tr1 m e2,
        decodeAction v = .ok (.push_command pid cmd) →
        _validate_sim_command eng e pid cmd = (Option.none, e1, tr1) →
        eng.push e1 pid cmd = (.error m, e2) →
        sessionStep eng e st v t? =
          ⟨.ok (failObs st m), st, e2, tr1 ++ [.push_command pid cmd]⟩)
    ∧ (∀ (e1 : E) (tr : List EngineCall) (st' : ZeroADState) (r : PyVal)
        (e' : E),
        _get_sim_time eng e1 = (.ok Option.none, e') →
        stepFinish eng e1 tr st' r =
          ⟨.ok { ok := true, result := _normalize_eval_result r,
                 error := Option.none, episode_id := st'.episode_id,
                 step_count := st'.step_count + 1,
                 stepper_detected := st'.stepper_detected,
                 sim_time := st'.last_sim_time },
            { episode_id := st'.episode_id,
              step_count := st'.step_count + 1, rl_url := st'.rl_url,
              last_sim_time := st'.last_sim_time,
              stepper_detected := st'.stepper_detected },
            e', tr ++ [.evaluate getSimTimeCode]⟩) := by
  refine ⟨?_, ?_, ?_, ?_, ?_⟩
  · intro msg hd
    unfold sessionStep
    rw [hd]
  · intro a hd m hres
    unfold sessionStep at hres ⊢
    rw [hd] at hres ⊢
    rcases a with ⟨pid, cmd⟩ | code
    · dsimp only at hres ⊢
      rcases hval : _validate_sim_command eng e pid cmd with ⟨err?, e1, tr1⟩
      rw [hval] at hres
      rcases err? with _ | err
      · dsimp only at hres ⊢
        rcases hpu : eng.push e1 pid cmd with ⟨pr, e2⟩
        rw [hpu] at hres
        rcases pr with m' | r
        · dsimp only at hres; cases hres
        · dsimp only at hres ⊢
          rcases stepFinish_cases eng e2 (tr1 ++ [.push_command pid cmd]) st r
            with ⟨m', e', _, hsf⟩ | ⟨tv, e', _, hsf⟩ | ⟨e', _, hsf⟩ <;>
            rw [hsf] at hres ⊢
          · exact ⟨rfl, by simp⟩
          · cases hres
          · cases hres
      · dsimp only at hres; cases hres
    · dsimp only at hres ⊢
      rcases hev : eng.eval e code with ⟨er, e1⟩
      rw [hev] at hres
      rcases er with m' | r
      · dsimp only at hres; cases hres
      · dsimp only at hres ⊢
        rcases stepFinish_cases eng e1 [.evaluate code] st r
          with ⟨m', e', _, hsf⟩ | ⟨tv, e', _, hsf⟩ | ⟨e', _, hsf⟩ <;>
          rw [hsf] at hres ⊢
        · exact ⟨rfl, by simp⟩
        · cases hres
        · cases hres
  · intro code m e1 hd he
    unfold sessionStep
    rw [hd]
    dsimp only
    rw [he]
  · intro pid cmd e1 tr1 m e2 hd hval hpush
    unfold sessionStep
    rw [hd]
    dsimp only
    rw [hval]
    dsimp only
    rw [hpush]
  · intro e1 tr st' r e' hget
    unfold stepFinish
    rw [hget]

/-- C3 counterexample: a malformed action dict (unknown tag) makes
`step` raise the schema error past its own boundary instead of
returning an observation — with no engine call and the state
untouched. -/
theorem claim_C3_counterexample :
    sessionStep okEngine () st0 (.dict [("op", .str "bogus")]) Option.none
      = ⟨.error "unable to extract tag using discriminator 'op'",
          st0, (), []⟩ := rfl

/-- C3 witness: the decode-failure raise and the caught forwarding
exception, at concrete inputs. -/
theorem claim_C3_witness :
    sessionStep raisingEngine () st0 (.dict [("op", .int 5)]) Option.none
      = ⟨.error "unable to extract tag using discriminator 'op'",
          st0, (), []⟩
    ∧ sessionStep raisingEngine () st0 evalDict Option.none
      = ⟨.ok (failObs st0 "connection refused"), st0, (),
          [.evaluate "1+1"]⟩ :=
  ⟨(claim_C3_boundary raisingEngine () st0 (.dict [("op", .int 5)])
      Option.none).1 "unable to extract tag using discriminator 'op'" rfl,
   (claim_C3_boundary raisingEngine () st0 evalDict Option.none).2.2.1
      "1+1" "connection refused" () rfl rfl⟩

/-- The validator's engine-call trace is empty or one `evaluate` of
the probe expression. -/
theorem validate_trace_shape {E : Type} (eng : Engine E) (e : E)
    (pid : Int) (cmd : PyDict) :
    (_validate_sim_command eng e pid cmd).2.2 = []
    ∨ (_validate_sim_command eng e pid cmd).2.2
        = [.evaluate (validationCode pid (ownedIdsOf cmd) (mustExistIdsOf cmd))] := by
  unfold _validate_sim_command
  dsimp only
  split_ifs with h1 h2 h3
  · left; rfl
  · left; rfl
  · left; rfl
  · rcases eng.eval e (validationCode pid (ownedIdsOf cmd) (mustExistIdsOf cmd))
      with ⟨r, e'⟩
    rcases r with m | v2
    · right; rfl
    · dsimp only
      rcases _normalize_eval_result v2 with _ | b | n | q | s | xs | kvs
      · right; rfl
      · right; rfl
      · right; rfl
      · right; rfl
      · right; rfl
      · right; rfl
      · dsimp only
        rcases pyGet kvs "ok" with _ | ov
        · right; rfl
        · rcases ov with _ | b | n | q | s | xs | kvs2
          · right; rfl
          · rcases b with _ | _
            · right; rfl
            · right; rfl
          · right; rfl
          · right; rfl
          · right; rfl
          · right; rfl
          · right; rfl

/-- The validator never performs a `push_command` call. -/
theorem validate_no_push {E : Type} (eng : Engine E) (e : E)
    (pid : Int) (cmd : PyDict) (p : Int) (c : PyDict) :
    EngineCall.push_command p c ∉ (_validate_sim_command eng e pid cmd).2.2 := by
  rcases validate_trace_shape eng e pid cmd with h | h <;> rw [h] <;> simp

/-- A well-formed `push_command` action dict decodes to the
corresponding action. -/
theorem decodeAction_pushDict (pid : Int) (cmd : PyDict) (h : 0 ≤ pid) :
    decodeAction (pushDict pid cmd) = .ok (.push_command pid cmd) := by
  unfold decodeAction pushDict
  simp [pyGet, h]

/-- The owned-id set of `walkCmdOn m` is exactly `[m]` for positive `m`. -/
theorem ownedIdsOf_walkCmdOn (m : Int) (hm : 0 < m) :
    ownedIdsOf (walkCmdOn m) = [m] := by
  show sortedDedup [m] = [m]
  unfold sortedDedup
  simp [hm, List.insertionSort, List.orderedInsert]

/-- The validator on `walkCmdOn m`, when the probe reports `m`
missing, rejects with the `invalid_entity_ids` message after exactly
one probe round trip. -/
theorem validate_walk_missing {E : Type} (eng : Engine E) (e e1' : E)
    (pid m : Int) (hm : 0 < m)
    (hprobe : eng.eval e (validationCode pid [m] [])
      = (.ok (probeMissing m), e1')) :
    _validate_sim_command eng e pid (walkCmdOn m)
      = (some ("invalid_entity_ids: "
          ++ ("missing=" ++ pyRepr (.list [.int m]))),
         e1', [.evaluate (validationCode pid [m] [])]) := by
  unfold _validate_sim_command
  rw [ownedIdsOf_walkCmdOn m hm,
      show mustExistIdsOf (walkCmdOn m) = [] from rfl]
  dsimp only
  rw [hprobe]
  rfl

/-- C2: when the validator rejects a `push_command` action, `step`
returns `ok=false` carrying exactly that validation error, the session
state is unchanged, and the forwarding primitive is never invoked (the
validator's trace holds no `push_command`); in particular, when the
engine's probe reports actor id `m` (e.g. 999) missing for the walk
command naming `m`, the error string contains that id. -/
theorem claim_C2_validation_rejection {E : Type} (eng : Engine E)
    (e e1 e1' : E) (st : ZeroADState) (pid : Int) (cmd : PyDict)
    (err : String) (tr1 : List EngineCall) (m : Int) (t? : Option Rat)
    (hpid : 0 ≤ pid) (hm : 0 < m)
    (hval : _validate_sim_command eng e pid cmd = (some err, e1, tr1))
    (hprobe : eng.eval e (validationCode pid [m] [])
      = (.ok (probeMissing m), e1')) :
    sessionStep eng e st (pushDict pid cmd) t?
      = ⟨.ok (failObs st err), st, e1, tr1⟩
    ∧ (∀ p c, EngineCall.push_command p c ∉ tr1)
    ∧ sessionStep eng e st (pushDict pid (walkCmdOn m)) t?
      = ⟨.ok (failObs st ("invalid_entity_ids: "
            ++ ("missing=" ++ pyRepr (.list [.int m])))),
          st, e1', [.evaluate (validationCode pid [m] [])]⟩
    ∧ (∃ pre post,
        "invalid_entity_ids: " ++ ("missing=" ++ pyRepr (.list [.int m]))
          = pre ++ toString m ++ post) := by
  refine ⟨?_, ?_, ?_, ?_⟩
  · unfold sessionStep
    rw [decodeAction_pushDict pid cmd hpid]
    dsimp only
    rw [hval]
  · intro p c
    have hnp := validate_no_push eng e pid cmd p c
    rw [hval] at hnp
    exact hnp
  · unfold sessionStep
    rw [decodeAction_pushDict pid (walkCmdOn m) hpid]
    dsimp only
    rw [validate_walk_missing eng e e1' pid m hm hprobe]
  · refine ⟨"invalid_entity_ids: " ++ ("missing=" ++ "["), "]", ?_⟩
    rw [show pyRepr (.list [.int m]) = "[" ++ toString m ++ "]" from rfl]
    simp [← String.append_assoc]

/-- C2 witness: a walk command naming actor 999, with the engine
reporting 999 missing, is rejected with an error containing "999" and
no `push_command` call. -/
theorem claim_C2_witness :
    sessionStep scriptEngine [.ok (probeMissing 999)] st0
        (pushDict 1 (walkCmdOn 999)) Option.none
      = ⟨.ok (failObs st0 "invalid_entity_ids: missing=[999]"), st0, [],
          [.evaluate (validationCode 1 [999] [])]⟩
    ∧ (∃ pre post, ("invalid_entity_ids: missing=[999]" : String)
        = pre ++ toString (999 : Int) ++ post) :=
  ⟨(claim_C2_validation_rejection scriptEngine [.ok (probeMissing 999)]
      [] [] st0 1 (walkCmdOn 999) "invalid_entity_ids: missing=[999]"
      [.evaluate (validationCode 1 [999] [])] 999 Option.none
      (by decide) (by decide) rfl rfl).2.2.1,
   (claim_C2_validation_rejection scriptEngine [.ok (probeMissing 999)]
      [] [] st0 1 (walkCmdOn 999) "invalid_entity_ids: missing=[999]"
      [.evaluate (validationCode 1 [999] [])] 999 Option.none
      (by decide) (by decide) rfl rfl).2.2.2⟩

/-- C6: for a command whose `type` tag is `"walk"`: an empty
deduplicated owned-id set fails the validator with the descriptive
entities error before any engine round trip (empty trace, engine state
untouched), regardless of other fields; and an absent or non-numeric
`x` or `z` (in the Python sense — `bool` counts as numeric since
`isinstance(True, int)` holds) also fails before any round trip, with
the numeric-fields error whenever the owned-id set is non-empty. -/
theorem claim_C6_walk_validation {E : Type} (eng : Engine E) (e : E)
    (pid : Int) (cmd : PyDict) (hw : isWalkCmd cmd = true) :
    (ownedIdsOf cmd = [] →
      _validate_sim_command eng e pid cmd
        = (some "walk requires non-empty 'entities'", e, []))
    ∧ (ownedIdsOf cmd ≠ [] →
        (pyNumLike (pyGet cmd "x") = false
          ∨ pyNumLike (pyGet cmd "z") = false) →
        _validate_sim_command eng e pid cmd
          = (some "walk requires numeric 'x' and 'z'", e, []))
    ∧ ((pyNumLike (pyGet cmd "x") = false
          ∨ pyNumLike (pyGet cmd "z") = false) →
        ∃ err, _validate_sim_command eng e pid cmd = (some err, e, [])) := by
  have hA : ownedIdsOf cmd = [] →
      _validate_sim_command eng e pid cmd
        = (some "walk requires non-empty 'entities'", e, []) := by
    intro h
    unfold _validate_sim_command
    dsimp only
    rw [hw, h]
    rfl
  have hB : ownedIdsOf cmd ≠ [] →
      (pyNumLike (pyGet cmd "x") = false
        ∨ pyNumLike (pyGet cmd "z") = false) →
      _validate_sim_command eng e pid cmd
        = (some "walk requires numeric 'x' and 'z'", e, []) := by
    intro hne hxz
    have hie : (ownedIdsOf cmd).isEmpty = false := by
      cases howned : ownedIdsOf cmd with
      | nil => exact absurd howned hne
      | cons a l => rfl
    unfold _validate_sim_command
    dsimp only
    rcases hxz with hx | hz
    · simp [hw, hie, hx]
    · simp [hw, hie, hz]
  refine ⟨hA, hB, ?_⟩
  intro hxz
  by_cases howned : ownedIdsOf cmd = []
  · exact ⟨_, hA howned⟩
  · exact ⟨_, hB howned hxz⟩

/-- C6 witness: a walk command with an empty entities list is rejected
with the descriptive error, with no engine round trip. -/
theorem claim_C6_witness :
    _validate_sim_command raisingEngine () 1
        [("type", PyVal.str "walk"), ("entities", PyVal.list []),
         ("x", PyVal.int 1), ("z", PyVal.int 2)]
      = (some "walk requires non-empty 'entities'", (), []) :=
  (claim_C6_walk_validation raisingEngine () 1
      [("type", PyVal.str "walk"), ("entities", PyVal.list []),
       ("x", PyVal.int 1), ("z", PyVal.int 2)] rfl).1 rfl

/-- C7 (amended): on the streaming channel, non-JSON text yields an
`error`/`INVALID_JSON` frame and the loop continues with state
untouched; an object message with an unrecognized `type` yields
`error`/`UNKNOWN_TYPE` and continues; `close` ends the loop; an
exception while dispatching a `step` message (e.g. the session
raising) yields `error`/`EXECUTION_ERROR` and the loop continues;
however a message that is valid JSON but not a JSON object raises an
uncaught AttributeError while reading its type and terminates the
stream. -/
theorem claim_C7_ws_stream {E : Type} (eng : Engine E) (e : E)
    (st : ZeroADState) (raw : String) (fresh : String)
    (kvs : List (String × PyVal)) :
    (jsonLoadsStr raw = Option.none →
      handleWs eng e st raw fresh
        = .next [.error "Invalid JSON: Expecting value" "INVALID_JSON"] st e)
    ∧ (∀ t, jsonLoadsStr raw = some (.dict kvs) →
        pyGet kvs "type" = some (.str t) →
        t ≠ "reset" → t ≠ "step" → t ≠ "state" → t ≠ "close" →
        handleWs eng e st raw fresh
          = .next [.error ("Unknown message type: " ++ t) "UNKNOWN_TYPE"]
              st e)
    ∧ (jsonLoadsStr raw = some (.dict kvs) →
        pyGet kvs "type" = some (.str "close") →
        handleWs eng e st raw fresh = .closed [] st e)
    ∧ (∀ m, jsonLoadsStr raw = some (.dict kvs) →
        pyGet kvs "type" = some (.str "step") →
        (sessionStep eng e st (dataOrEmpty kvs) Option.none).res = .error m →
        handleWs eng e st raw fresh
          = .next [.error m "EXECUTION_ERROR"]
              (sessionStep eng e st (dataOrEmpty kvs) Option.none).st
              (sessionStep eng e st (dataOrEmpty kvs) Option.none).eng)
    ∧ (∀ v, jsonLoadsStr raw = some v → (∀ kvs2, v ≠ .dict kvs2) →
        handleWs eng e st raw fresh
          = .raised ("'" ++ pyTypeName v ++ "' object has no attribute 'get'")
              st e) := by
  refine ⟨?_, ?_, ?_, ?_, ?_⟩
  · intro h
    unfold handleWs
    rw [h]
  · intro t hj ht h1 h2 h3 h4
    unfold handleWs
    rw [hj]
    unfold dispatchWs
    dsimp only
    rw [ht]
    simp [h1, h2, h3, h4, pyStr]
  · intro hj ht
    unfold handleWs
    rw [hj]
    unfold dispatchWs
    dsimp only
    rw [ht]
    rfl
  · intro m hj ht hres
    unfold handleWs
    rw [hj]
    unfold dispatchWs
    dsimp only
    rw [ht]
    dsimp only
    rw [hres]
    rfl
  · intro v hj hnd
    unfold handleWs
    rw [hj]
    unfold dispatchWs
    rcases v with _ | b | n | q | s | xs | kvs2
    · rfl
    · rfl
    · rfl
    · rfl
    · rfl
    · rfl
    · exact absurd rfl (hnd kvs2)

/-- C7 counterexample: the single message `5` — valid JSON, not an
object — terminates the stream with an uncaught AttributeError rather
than an `error`/`EXECUTION_ERROR` frame. -/
theorem claim_C7_counterexample :
    handleWs okEngine () st0 "5" "ep-1"
      = .raised "'int' object has no attribute 'get'" st0 () := rfl

/-- C7 witness: invalid JSON keeps the loop alive with an
`INVALID_JSON` frame; a `close` message ends the loop. -/
theorem claim_C7_witness :
    handleWs okEngine () st0 "nope" "ep-1"
      = .next [.error "Invalid JSON: Expecting value" "INVALID_JSON"] st0 ()
    ∧ handleWs okEngine () st0 "\x7b\"type\":\"close\"\x7d" "ep-1"
      = .closed [] st0 () :=
  ⟨(claim_C7_ws_stream okEngine () st0 "nope" "ep-1" []).1 rfl,
   (claim_C7_ws_stream okEngine () st0 "\x7b\"type\":\"close\"\x7d" "ep-1"
      [("type", .str "close")]).2.2.1 rfl rfl⟩

/-- `msg.get("data") or \x7b\x7d` on a step message whose data is a dict is
that dict (an empty dict is falsy but is replaced by an equal empty
dict). -/
theorem dataOrEmpty_step_dict (kvs : List (String × PyVal)) :
    dataOrEmpty [("type", .str "step"), ("data", .dict kvs)] = .dict kvs := by
  cases kvs with
  | nil => rfl
  | cons a l => rfl

/-- C9 (amended): the stream's `step` message passes its `data`
payload to the session as the bare action dict (not wrapped in
`\x7baction, timeout_s, request_id\x7d`), with no timeout — and since the
session ignores `timeout_s`, for the same action dict both transports
produce the same `\x7bobservation, reward, done\x7d` envelope content
whenever the session returns an observation. -/
theorem claim_C9_transport_mirror {E : Type} (eng : Engine E) (e : E)
    (st : ZeroADState) (kvs : List (String × PyVal)) (fresh : String)
    (t? : Option Rat) :
    sessionStep eng e st (.dict kvs) t?
      = sessionStep eng e st (.dict kvs) Option.none
    ∧ (∀ obs, (sessionStep eng e st (.dict kvs) Option.none).res = .ok obs →
        dispatchWs eng e st
            (.dict [("type", .str "step"), ("data", .dict kvs)]) fresh
          = .next [.observation ⟨obs, Option.none, false⟩]
              (sessionStep eng e st (.dict kvs) Option.none).st
              (sessionStep eng e st (.dict kvs) Option.none).eng
        ∧ httpStep eng e st (.dict kvs) t?
          = (.ok ⟨obs, Option.none, false⟩,
              (sessionStep eng e st (.dict kvs) Option.none).st,
              (sessionStep eng e st (.dict kvs) Option.none).eng,
              (sessionStep eng e st (.dict kvs) Option.none).trace)) := by
  refine ⟨rfl, ?_⟩
  intro obs hres
  constructor
  · unfold dispatchWs
    dsimp only
    rw [show pyGet [("type", PyVal.str "step"), ("data", PyVal.dict kvs)]
          "type" = some (.str "step") from rfl]
    dsimp only
    rw [dataOrEmpty_step_dict kvs, hres]
    rfl
  · unfold httpStep
    rw [show sessionStep eng e st (.dict kvs) t?
          = sessionStep eng e st (.dict kvs) Option.none from rfl]
    dsimp only
    rw [hres]

/-- C9 counterexample: the POST-step payload shape
`\x7b"action": \x7b"op": "evaluate", "code": "1+1"\x7d\x7d` succeeds over
request/response but, sent as a stream `step` message's data, is
rejected as a schema error and surfaces as `EXECUTION_ERROR` — the two
transports do not accept the same payload. -/
theorem claim_C9_counterexample :
    httpStep okEngine () st0 evalDict Option.none
      = (.ok ⟨{ ok := true, result := .int 2, error := Option.none,
                episode_id := Option.none, step_count := 1,
                stepper_detected := Option.none, sim_time := Option.none },
              Option.none, false⟩,
          { episode_id := Option.none, step_count := 1,
            rl_url := "http://127.0.0.1:6000",
            last_sim_time := Option.none,
            stepper_detected := Option.none },
          (), [.evaluate "1+1", .evaluate getSimTimeCode])
    ∧ dispatchWs okEngine () st0
        (.dict [("type", .str "step"),
                ("data", .dict [("action", evalDict)])]) "ep-1"
      = .next [.error "unable to extract tag using discriminator 'op'"
                 "EXECUTION_ERROR"] st0 () :=
  ⟨rfl, rfl⟩

/-- C9 witness: for the bare `evaluate` action dict, the stream and
the POST endpoint produce the same envelope content. -/
theorem claim_C9_witness :
    dispatchWs okEngine () st0
        (.dict [("type", .str "step"),
                ("data", .dict [("op", .str "evaluate"),
                                ("code", .str "1+1")])]) "ep-1"
      = .next [.observation
            ⟨{ ok := true, result := .int 2, error := Option.none,
               episode_id := Option.none, step_count := 1,
               stepper_detected := Option.none, sim_time := Option.none },
             Option.none, false⟩]
          { episode_id := Option.none, step_count := 1,
            rl_url := "http://127.0.0.1:6000",
            last_sim_time := Option.none, stepper_detected := Option.none }
          ()
    ∧ httpStep okEngine () st0
        (.dict [("op", .str "evaluate"), ("code", .str "1+1")]) Option.none
      = (.ok ⟨{ ok := true, result := .int 2, error := Option.none,
                episode_id := Option.none, step_count := 1,
                stepper_detected := Option.none, sim_time := Option.none },
              Option.none, false⟩,
          { episode_id := Option.none, step_count := 1,
            rl_url := "http://127.0.0.1:6000",
            last_sim_time := Option.none, stepper_detected := Option.none },
          (), [.evaluate "1+1", .evaluate getSimTimeCode]) :=
  (claim_C9_transport_mirror okEngine () st0
      [("op", .str "evaluate"), ("code", .str "1+1")] "ep-1" Option.none).2
    { ok := true, result := .int 2, error := Option.none,
      episode_id := Option.none, step_count := 1,
      stepper_detected := Option.none, sim_time := Option.none }
    rfl
